import Mathlib

/-!
Verification of the matching and recommendation engine of the
intelligent-matchmaking-system repository.  The Python services are shallowly
embedded: dictionaries become records (with the code's `.get` defaults folded
into the record fields), Python sets become `Finset String`, floats become
exact `ℚ` where the code only does field arithmetic and `ℝ` where the code
calls into TF-IDF / cosine-similarity routines, and the sklearn library calls
are modelled by explicit definitions noted in their doc comments.
-/

namespace CA12

/-! ### Data model (backend/app dictionaries as records) -/

/-- The skills sub-dictionary of a user document. -/
structure Skills where
  interests : List String
  strengths : List String
  weaknesses : List String
deriving Repr, DecidableEq

/-- The profile sub-dictionary of a user document. -/
structure Profile where
  academic_level : String
  field_of_study : String
  learning_preferences : List String
  availability : List (String × List String)
  bio : String
deriving Repr, DecidableEq

/-- A user document as the services read it: every key any of the embedded
functions accesses, with the code's `.get` defaults folded in as plain
fields.  Expert-specific keys (expertise areas, years of experience,
job title) live on the same record, as in the schemaless source documents. -/
structure User where
  id : String
  role : String
  is_active : Bool
  profile : Profile
  skills : Skills
  points : Int
  level : Int
  session_count : Int
  avg_rating : ℚ
  expertise_areas : List String
  years_experience : Int
  job_title : String
deriving Repr, DecidableEq

/-- Python list/substring containment helper: `isInfixB needle hay` is
`needle in hay` on lists. -/
def isInfixB (needle : List Char) : List Char → Bool
  | [] => needle.isEmpty
  | c :: t => needle.isPrefixOf (c :: t) || isInfixB needle t

/-- Python substring test `needle in hay` on strings. -/
def strContains (hay needle : String) : Bool :=
  isInfixB needle.toList hay.toList

/-- Python `" ".join l`. -/
def joinSpace (l : List String) : String :=
  String.intercalate " " l

/-- Python `str.strip()`: drop leading and trailing whitespace (spelled out
on the character list so the kernel can evaluate it). -/
def pyStrip (s : String) : String :=
  (((s.toList.dropWhile Char.isWhitespace).reverse.dropWhile Char.isWhitespace).reverse).asString

/-- Python `str.lower()` (spelled out on the character list so the kernel
can evaluate it). -/
def pyLower (s : String) : String :=
  (s.toList.map Char.toLower).asString

/-- Helper for `pyWords`: split a character list on whitespace runs,
carrying the (reversed) current word. -/
def wordsAux : List Char → List Char → List String
  | [], cur => if cur = [] then [] else [cur.reverse.asString]
  | c :: t, cur =>
    if c.isWhitespace then
      (if cur = [] then wordsAux t [] else cur.reverse.asString :: wordsAux t [])
    else wordsAux t (c :: cur)

/-- Python `str.split()` with no argument: whitespace-run splitting with no
empty words. -/
def pyWords (s : String) : List String :=
  wordsAux s.toList []

/-- Helper for `pySplitOnChar`: split on a separator character, keeping
empty pieces as Python `str.split(sep)` does. -/
def splitOnCharAux (sep : Char) : List Char → List Char → List String
  | [], cur => [cur.reverse.asString]
  | c :: t, cur =>
    if c = sep then cur.reverse.asString :: splitOnCharAux sep t []
    else splitOnCharAux sep t (c :: cur)

/-- Python `str.split(sep)` for a one-character separator. -/
def pySplitOnChar (sep : Char) (s : String) : List String :=
  splitOnCharAux sep s.toList []

/-! ### MatchmakingService (backend/app/services/matchmaking_service.py) -/

/-- `MatchmakingService._calculate_skill_compatibility`: mentor/mentee cover
ratio, peer mutual-benefit ratio, or study-partner interest Jaccard. -/
def calcSkillCompatibility (user1 user2 : User) (matchType : String) : ℚ :=
  if matchType = "mentor_mentee" then
    let mentorStrengths := user2.skills.strengths.toFinset
    let menteeWeaknesses := user1.skills.weaknesses.toFinset
    if menteeWeaknesses = ∅ then 0
    else ((mentorStrengths ∩ menteeWeaknesses).card : ℚ) / (menteeWeaknesses.card : ℚ)
  else if matchType = "peer" then
    let s1 := user1.skills.strengths.toFinset
    let w1 := user1.skills.weaknesses.toFinset
    let s2 := user2.skills.strengths.toFinset
    let w2 := user2.skills.weaknesses.toFinset
    if w1.card + w2.card = 0 then 1/2
    else (((s1 ∩ w2).card : ℚ) + ((s2 ∩ w1).card : ℚ)) / ((w1.card : ℚ) + (w2.card : ℚ))
  else
    let i1 := user1.skills.interests.toFinset
    let i2 := user2.skills.interests.toFinset
    if i1 ∪ i2 = ∅ then 0
    else ((i1 ∩ i2).card : ℚ) / ((i1 ∪ i2).card : ℚ)

/-- Per-day slot overlap inside `_calculate_schedule_compatibility`: the
contribution a common day adds to the running overlap score. -/
def dayOverlap (slots1 slots2 : List String) : ℚ :=
  let s1 := slots1.toFinset
  let s2 := slots2.toFinset
  if s1 ∩ s2 = ∅ then 0
  else ((s1 ∩ s2).card : ℚ) / (max s1.card s2.card : ℚ)

/-- `MatchmakingService._calculate_schedule_compatibility`: average per-day
slot overlap over the days present in both availability maps; 0.5 when either
map is empty. -/
def calcScheduleCompatibility (user1 user2 : User) : ℚ :=
  let a1 := user1.profile.availability
  let a2 := user2.profile.availability
  if a1 = [] ∨ a2 = [] then 1/2
  else
    let commonDays := a1.filter (fun p => (a2.lookup p.1).isSome)
    let overlapScore := (commonDays.map (fun p => dayOverlap p.2 ((a2.lookup p.1).getD []))).sum
    overlapScore / (max commonDays.length 1 : ℚ)

/-- `MatchmakingService._calculate_learning_style_compatibility`: Jaccard of
the learning-preference sets; 0.5 when either is empty. -/
def calcLearningStyleCompatibility (user1 user2 : User) : ℚ :=
  let p1 := user1.profile.learning_preferences.toFinset
  let p2 := user2.profile.learning_preferences.toFinset
  if p1 = ∅ ∨ p2 = ∅ then 1/2
  else if p1 ∪ p2 = ∅ then 0
  else ((p1 ∩ p2).card : ℚ) / ((p1 ∪ p2).card : ℚ)

/-- The text blob `f"{field_of_study} {' '.join(interests)}".strip()` built by
`_calculate_topic_relevance` for one side. -/
def topicText (u : User) : String :=
  pyStrip (u.profile.field_of_study ++ " " ++ joinSpace u.skills.interests)

/-- Modelled tokenization of sklearn's TfidfVectorizer: lowercase and split on
spaces.  (The vectorizer's token pattern and stop-word list refine this; every
claim checked here depends only on the resulting term counts being
nonnegative.) -/
def tokenize (s : String) : List String :=
  pyWords (pyLower s)

/-- Number of documents of the corpus containing term `t`. -/
def docFreq (corpus : List (List String)) (t : String) : ℕ :=
  corpus.countP (fun d => t ∈ d)

/-- Smoothed inverse document frequency as sklearn's TfidfVectorizer computes
it: `ln((1+n)/(1+df)) + 1` over a corpus of `n` documents. -/
noncomputable def corpusIdf (corpus : List (List String)) (t : String) : ℝ :=
  Real.log ((1 + (corpus.length : ℝ)) / (1 + (docFreq corpus t : ℝ))) + 1

/-- TF-IDF weight of term `t` in document `doc` relative to `corpus`. -/
noncomputable def tfidfWeight (corpus : List (List String)) (doc : List String) (t : String) : ℝ :=
  (doc.count t : ℝ) * corpusIdf corpus t

/-- The vocabulary a fitted TfidfVectorizer extracts from its corpus. -/
def corpusVocab (corpus : List (List String)) : Finset String :=
  (corpus.foldr (· ++ ·) []).toFinset

/-- Cosine similarity of the TF-IDF vectors of two token lists, in the space
of a vectorizer fitted on `corpus` (sklearn `cosine_similarity` after
`fit_transform`/`transform`); 0 when either vector is zero, as sklearn's
row normalization yields. -/
noncomputable def corpusCosine (corpus : List (List String)) (d1 d2 : List String) : ℝ :=
  let vocab := corpusVocab corpus
  let w1 := tfidfWeight corpus d1
  let w2 := tfidfWeight corpus d2
  let dot := ∑ t ∈ vocab, w1 t * w2 t
  let n1 := Real.sqrt (∑ t ∈ vocab, w1 t ^ 2)
  let n2 := Real.sqrt (∑ t ∈ vocab, w2 t ^ 2)
  if n1 = 0 ∨ n2 = 0 then 0 else dot / (n1 * n2)

/-- The pairwise TF-IDF cosine `_calculate_topic_relevance` computes by
fitting a TfidfVectorizer on the two texts and taking `cosine_similarity`. -/
noncomputable def tfidfCosine (d1 d2 : List String) : ℝ :=
  corpusCosine [d1, d2] d1 d2

/-- `MatchmakingService._calculate_topic_relevance`: TF-IDF cosine of the two
field-plus-interests text blobs; 0.5 when either blob is empty. -/
noncomputable def calcTopicRelevance (user1 user2 : User) : ℝ :=
  let t1 := topicText user1
  let t2 := topicText user2
  if t1 = "" ∨ t2 = "" then 1/2
  else tfidfCosine (tokenize t1) (tokenize t2)

/-- `app/models/match_model.MatchScore`. -/
structure MatchScore where
  overall_score : ℝ
  skill_compatibility : ℝ
  schedule_compatibility : ℝ
  learning_style_compatibility : ℝ
  topic_relevance : ℝ

/-- The per-match-type weight rows `[skill, schedule, style, topic]` of
`_calculate_match_score`, with the dictionary lookup's `peer` default. -/
def matchWeights (matchType : String) : ℝ × ℝ × ℝ × ℝ :=
  if matchType = "mentor_mentee" then (0.4, 0.2, 0.2, 0.2)
  else if matchType = "peer" then (0.3, 0.25, 0.25, 0.2)
  else if matchType = "study_partner" then (0.25, 0.3, 0.25, 0.2)
  else (0.3, 0.25, 0.25, 0.2)

/-- `MatchmakingService._calculate_match_score`. -/
noncomputable def calcMatchScore (user1 user2 : User) (matchType : String) : MatchScore :=
  let skill : ℝ := (calcSkillCompatibility user1 user2 matchType : ℝ)
  let schedule : ℝ := (calcScheduleCompatibility user1 user2 : ℝ)
  let style : ℝ := (calcLearningStyleCompatibility user1 user2 : ℝ)
  let topic : ℝ := calcTopicRelevance user1 user2
  let w := matchWeights matchType
  { overall_score := skill * w.1 + schedule * w.2.1 + style * w.2.2.1 + topic * w.2.2.2
    skill_compatibility := skill
    schedule_compatibility := schedule
    learning_style_compatibility := style
    topic_relevance := topic }

/-- A candidate together with the attached match score, as the matchmaking
flows return it. -/
structure ScoredUser where
  id : String
  match_score : MatchScore

/-- `MatchmakingService._find_mentors`: empty-weaknesses early return, the
Mongo candidate filter, scoring, the 0.3 threshold, the stable descending
sort, and the limit cut. -/
noncomputable def findMentors (user : User) (pool : List User) (limit : ℕ) : List ScoredUser :=
  if user.skills.weaknesses = [] then []
  else
    let candidates := pool.filter (fun m =>
      decide (m.id ≠ user.id) && m.is_active &&
        (decide (m.role = "mentor") || decide (m.role = "admin") ||
          m.skills.strengths.any (fun s => s ∈ user.skills.weaknesses)))
    let scored := candidates.filterMap (fun m =>
      let sc := calcMatchScore user m "mentor_mentee"
      if 0.3 < sc.overall_score then some ⟨m.id, sc⟩ else none)
    (scored.mergeSort (fun a b =>
      decide (b.match_score.overall_score ≤ a.match_score.overall_score))).take limit

/-- `MatchmakingService._find_peers`: same-level candidate filter, peer
scoring, the 0.4 threshold, stable descending sort, limit cut. -/
noncomputable def findPeers (user : User) (pool : List User) (limit : ℕ) : List ScoredUser :=
  let candidates := pool.filter (fun p =>
    decide (p.id ≠ user.id) && p.is_active &&
      decide (p.profile.academic_level = user.profile.academic_level) &&
      (p.skills.interests.any (fun i => i ∈ user.skills.interests) ||
        p.skills.strengths.any (fun s => s ∈ user.skills.weaknesses) ||
        p.skills.weaknesses.any (fun w => w ∈ user.skills.strengths)))
  let scored := candidates.filterMap (fun p =>
    let sc := calcMatchScore user p "peer"
    if 0.4 < sc.overall_score then some ⟨p.id, sc⟩ else none)
  (scored.mergeSort (fun a b =>
    decide (b.match_score.overall_score ≤ a.match_score.overall_score))).take limit

/-- `MatchmakingService._find_study_partners`.  The Mongo case-insensitive
`$regex` match on field of study is modelled as lowercase substring
containment (the regex metacharacter escape hatch is out of scope). -/
noncomputable def findStudyPartners (user : User) (pool : List User) (limit : ℕ) : List ScoredUser :=
  let candidates := pool.filter (fun p =>
    decide (p.id ≠ user.id) && p.is_active &&
      strContains (pyLower p.profile.field_of_study) (pyLower user.profile.field_of_study))
  let scored := candidates.filterMap (fun p =>
    let sc := calcMatchScore user p "study_partner"
    if 0.3 < sc.overall_score then some ⟨p.id, sc⟩ else none)
  (scored.mergeSort (fun a b =>
    decide (b.match_score.overall_score ≤ a.match_score.overall_score))).take limit

/-- `MatchmakingService.find_potential_matches`: strategy dispatch on the
match type (the database lookup of the requesting user is replaced by the
user record itself). -/
noncomputable def findPotentialMatches (user : User) (pool : List User)
    (matchType : String) (limit : ℕ) : List ScoredUser :=
  if matchType = "mentor_mentee" then findMentors user pool limit
  else if matchType = "peer" then findPeers user pool limit
  else findStudyPartners user pool limit

/-! ### RecommendationModel (ml/recommendation_model.py) -/

/-- `level_mapping.get(academic_level, 1)` in `prepare_user_features`. -/
def levelCode (academic_level : String) : ℤ :=
  if academic_level = "undergraduate" then 1
  else if academic_level = "graduate" then 2
  else if academic_level = "phd" then 3
  else if academic_level = "postdoc" then 4
  else 1

/-- The first-matching-substring field encoding of `prepare_user_features`,
scanning `field_mapping` in its insertion order. -/
def fieldCode (field_of_study : String) : ℤ :=
  let f := pyLower field_of_study
  if strContains f "computer science" then 1
  else if strContains f "mathematics" then 2
  else if strContains f "physics" then 3
  else if strContains f "chemistry" then 4
  else if strContains f "biology" then 5
  else if strContains f "psychology" then 6
  else if strContains f "business" then 7
  else if strContains f "engineering" then 8
  else if strContains f "literature" then 9
  else if strContains f "history" then 10
  else 0

/-- The per-user feature row `prepare_user_features` appends: level code,
field code, four learning-preference flags, three skill counts, points,
level, session count and average rating. -/
def featureVector (u : User) : List ℚ :=
  [ (levelCode u.profile.academic_level : ℚ),
    (fieldCode u.profile.field_of_study : ℚ),
    (if "visual" ∈ u.profile.learning_preferences then 1 else 0),
    (if "auditory" ∈ u.profile.learning_preferences then 1 else 0),
    (if "kinesthetic" ∈ u.profile.learning_preferences then 1 else 0),
    (if "reading" ∈ u.profile.learning_preferences then 1 else 0),
    (u.skills.interests.length : ℚ),
    (u.skills.strengths.length : ℚ),
    (u.skills.weaknesses.length : ℚ),
    (u.points : ℚ),
    (u.level : ℚ),
    (u.session_count : ℚ),
    u.avg_rating ]

/-- `RecommendationModel.prepare_user_features`: the feature matrix and the
id column, built by one loop over the users. -/
def prepareUserFeatures (users : List User) : List (List ℚ) × List String :=
  (users.map featureVector, users.map User.id)

/-- Mean of column `j` of a feature matrix (sklearn StandardScaler `mean_`). -/
def colMean (rows : List (List ℚ)) (j : ℕ) : ℚ :=
  ((rows.map (fun r => r.getD j 0)).sum) / (rows.length : ℚ)

/-- Population variance of column `j` (StandardScaler uses `var_`). -/
def colVar (rows : List (List ℚ)) (j : ℕ) : ℚ :=
  ((rows.map (fun r => (r.getD j 0 - colMean rows j) ^ 2)).sum) / (rows.length : ℚ)

/-- StandardScaler `scale_` for column `j`: the standard deviation, with a
zero deviation replaced by 1 as `_handle_zeros_in_scale` does. -/
noncomputable def colScale (rows : List (List ℚ)) (j : ℕ) : ℝ :=
  if colVar rows j = 0 then 1 else Real.sqrt (colVar rows j)

/-- The fitted StandardScaler state: per-column mean and scale. -/
structure ScalerStats where
  mean : List ℚ
  scale : List ℝ

/-- Fitting the StandardScaler on a feature matrix. -/
noncomputable def fitScaler (rows : List (List ℚ)) : ScalerStats :=
  let n := (rows.headD []).length
  { mean := (List.range n).map (colMean rows)
    scale := (List.range n).map (colScale rows) }

/-- StandardScaler `transform` of one row. -/
noncomputable def scaleRow (sc : ScalerStats) (row : List ℚ) : List ℝ :=
  (List.range sc.mean.length).map (fun j =>
    ((row.getD j 0 : ℝ) - (sc.mean.getD j 0 : ℝ)) / sc.scale.getD j 1)

/-- The fitted NearestNeighbors structure: neighbor count and the scaled
training matrix it was fitted on. -/
structure KnnModel where
  n_neighbors : ℕ
  data : List (List ℝ)

/-- The mutable state of `RecommendationModel` that
`train_user_similarity_model` touches. -/
structure RecState where
  user_similarity_model : Option KnnModel
  scaler : Option ScalerStats
  user_features : Option (List (List ℝ))
  user_ids : Option (List String)

/-- `RecommendationModel.train_user_similarity_model`: refuses corpora of
fewer than 3 users (state untouched), otherwise fits the scaler, scales the
features and fits the k-NN structure. -/
noncomputable def trainUserSimilarityModel (st : RecState) (users_data : List User) :
    Bool × RecState :=
  if users_data.length < 3 then (false, st)
  else
    let fi := prepareUserFeatures users_data
    if fi.1 = [] then (false, st)
    else
      let sc := fitScaler fi.1
      let featuresScaled := fi.1.map (scaleRow sc)
      let nNeighbors := min 10 featuresScaled.length
      (true,
        { user_similarity_model := some ⟨nNeighbors, featuresScaled⟩
          scaler := some sc
          user_features := some featuresScaled
          user_ids := some fi.2 })

/-- Dot product of two equal-length real vectors. -/
noncomputable def listDot (x y : List ℝ) : ℝ :=
  (List.zipWith (· * ·) x y).sum

/-- Cosine distance as sklearn's brute-force cosine metric computes it,
with the zero-vector convention of distance 1. -/
noncomputable def cosineDistance (x y : List ℝ) : ℝ :=
  let nx := Real.sqrt (listDot x x)
  let ny := Real.sqrt (listDot y y)
  if nx = 0 ∨ ny = 0 then 1 else 1 - listDot x y / (nx * ny)

/-- Modelled `NearestNeighbors.kneighbors` for one query row: every training
row with its cosine distance, sorted by distance (index-ascending on ties;
sklearn leaves tie order unspecified), cut to `k`. -/
noncomputable def kneighbors (knn : KnnModel) (q : List ℝ) (k : ℕ) : List (ℝ × ℕ) :=
  let ds := knn.data.enum.map (fun p => (cosineDistance q p.2, p.1))
  (ds.mergeSort (fun a b =>
    decide (a.1 < b.1) || (decide (a.1 = b.1) && decide (a.2 ≤ b.2)))).take k

/-- One entry of `recommend_users`' result list. -/
structure RecPair where
  user_id : String
  similarity_score : ℝ
  recommendation_type : String

/-- `RecommendationModel.recommend_users`: scale the query row with the
stored scaler, query the k-NN structure, skip excluded ids and the user's
own id, stop at `n` recommendations. -/
noncomputable def recommendUsers (st : RecState) (user_profile : User)
    (n : ℕ) (exclude_ids : List String) : List RecPair :=
  match st.user_similarity_model, st.user_features, st.scaler, st.user_ids with
  | some knn, some _, some sc, some ids =>
    let qf := prepareUserFeatures [user_profile]
    if qf.1 = [] then []
    else
      let q := scaleRow sc (qf.1.headD [])
      let neighbors := kneighbors knn q (min (n + 5) ids.length)
      let excludeSet := exclude_ids ++ [user_profile.id]
      neighbors.foldl (fun acc di =>
        if n ≤ acc.length then acc
        else
          let rid := ids.getD di.2 ""
          if rid ∈ excludeSet then acc
          else acc ++ [⟨rid, 1 - di.1, "user_similarity"⟩]) []
  | _, _, _, _ => []

/-! ### MLService (ml/ml_service.py) -/

/-- `MLService._level_to_number`: `mapping.get(level.lower(), 1)`. -/
def mlLevelToNumber (level : String) : ℤ :=
  let l := pyLower level
  if l = "undergraduate" then 1
  else if l = "graduate" then 2
  else if l = "phd" then 3
  else if l = "postdoc" then 4
  else 1

/-- The rule-based candidate score of `MLService._rule_based_user_matching`:
0.4 per overlapping interest, 0.3 for a (nonempty) lowercase field-of-study
substring match, 0.2 for an exact academic-level match or 0.1 for an
adjacent one, and 0.1 for more than 100 points. -/
def ruleBasedScore (user other : User) : ℚ :=
  let interestOverlap :=
    ((user.skills.interests.toFinset ∩ other.skills.interests.toFinset).card : ℚ)
  let userField := pyLower user.profile.field_of_study
  let otherField := pyLower other.profile.field_of_study
  interestOverlap * (2/5)
    + (if userField ≠ "" ∧ otherField ≠ "" ∧ strContains otherField userField
        then 3/10 else 0)
    + (if user.profile.academic_level = other.profile.academic_level then 1/5
       else if (mlLevelToNumber user.profile.academic_level
            - mlLevelToNumber other.profile.academic_level).natAbs = 1 then 1/10
       else 0)
    + (if 100 < other.points then 1/10 else 0)

/-- One entry of the rule-based fallback's result list. -/
structure RuleMatch where
  user_id : String
  similarity_score : ℚ
deriving Repr, DecidableEq

/-- One iteration of `_rule_based_user_matching`'s candidate loop: skip the
requesting user, score the candidate, keep it only when the score is
strictly positive. -/
def ruleBasedEntry (user other : User) : Option RuleMatch :=
  if other.id = user.id then none
  else
    let score := ruleBasedScore user other
    if 0 < score then some ⟨other.id, score⟩ else none

/-- `MLService._rule_based_user_matching`: score every candidate other than
the requesting user, keep the strictly positive scores, sort by score
descending (Python's stable sort), return the first `n`. -/
def ruleBasedUserMatching (user : User) (pool : List User) (n : ℕ) : List RuleMatch :=
  let ms := pool.filterMap (ruleBasedEntry user)
  (ms.mergeSort (fun a b => decide (b.similarity_score ≤ a.similarity_score))).take n

/-- The `MLService` state `get_user_recommendations` consults: the
`model_status["recommendation_model"]` flag and the recommendation model. -/
structure MLState where
  recTrained : Bool
  recModel : RecState

/-- `MLService.train_recommendation_model` with no interaction data: train
the user-similarity model and record the outcome in the status flag. -/
noncomputable def trainRecommendationModel (s : MLState) (users_data : List User) :
    Bool × MLState :=
  let r := trainUserSimilarityModel s.recModel users_data
  (r.1, { recTrained := r.1, recModel := r.2 })

/-- One entry of `get_user_recommendations`' enriched result list. -/
structure RecOut where
  user_id : String
  similarity_score : ℝ
  recommendation_type : String

/-- The enrichment loop of `get_user_recommendations`: keep a
recommendation only when its id is found in the available pool. -/
noncomputable def enrichRecommendations (pool : List User) (recs : List RecPair) :
    List RecOut :=
  recs.filterMap (fun r =>
    if pool.any (fun u => u.id = r.user_id)
    then some ⟨r.user_id, r.similarity_score, r.recommendation_type⟩
    else none)

/-- The rule-based fallback's records viewed at the service output type. -/
def ruleOut (l : List RuleMatch) : List RecOut :=
  l.map (fun r => ⟨r.user_id, (r.similarity_score : ℝ), "rule_based"⟩)

/-- `MLService.get_user_recommendations`: with an untrained model, pools of
at least 3 users trigger a training attempt and then the ML path, smaller
pools take the rule-based fallback; with a trained model the ML path runs
directly. -/
noncomputable def getUserRecommendations (s : MLState) (user : User)
    (pool : List User) (n : ℕ) : List RecOut × MLState :=
  if s.recTrained = false then
    if 3 ≤ pool.length then
      let s1 := (trainRecommendationModel s (pool ++ [user])).2
      (enrichRecommendations pool (recommendUsers s1.recModel user n []), s1)
    else (ruleOut (ruleBasedUserMatching user pool n), s)
  else (enrichRecommendations pool (recommendUsers s.recModel user n []), s)

/-! ### Resource ranking (RecommendationModel.recommend_learning_resources) -/

/-- A learning-resource document with the keys the ranker reads, defaults
folded in. -/
structure Resource where
  id : String
  topics : List String
  level : String
  average_rating : ℚ
  popularity_score : ℚ
deriving Repr, DecidableEq

/-- `RecommendationModel._level_to_number`: `mapping.get(level.lower(), 2)`. -/
def recLevelToNumber (level : String) : ℤ :=
  let l := pyLower level
  if l = "undergraduate" then 1
  else if l = "graduate" then 2
  else if l = "phd" then 3
  else if l = "postdoc" then 4
  else 2

/-- The per-resource score of `recommend_learning_resources`: 0.4 per topic
matching the user's interests or weaknesses, a 0.3/0.2 level bonus, the raw
average rating weighted 0.2 and the popularity weighted 0.1. -/
def resourceScore (user : User) (resource : Resource) : ℚ :=
  let userLevel := user.profile.academic_level
  let topicRelevance :=
    (((user.skills.interests ++ user.skills.weaknesses).toFinset
        ∩ resource.topics.toFinset).card : ℚ)
  topicRelevance * (2/5)
    + (if resource.level = userLevel then 3/10
       else if (recLevelToNumber resource.level - recLevelToNumber userLevel).natAbs = 1
        then 1/5
       else 0)
    + resource.average_rating * (1/5)
    + resource.popularity_score * (1/10)

/-- One entry of the resource recommendation list. -/
structure ResourceRec where
  resource_id : String
  relevance_score : ℚ
deriving Repr, DecidableEq

/-- `RecommendationModel.recommend_learning_resources`: score every
available resource, sort by score descending (stable), return the first
`n`. -/
def recommendLearningResources (user : User) (resources : List Resource) (n : ℕ) :
    List ResourceRec :=
  let scored := resources.map (fun r => (⟨r.id, resourceScore user r⟩ : ResourceRec))
  (scored.mergeSort (fun a b => decide (b.relevance_score ≤ a.relevance_score))).take n

/-! ### ExpertMatchingModel (ml/expert_matching_model.py) -/

/-- `ExpertMatchingModel.prepare_expert_profile_text`: expertise areas,
interests and strengths, field of study and job title, space-joined and
lowercased. -/
def prepareExpertProfileText (expert : User) : String :=
  let parts :=
    (if expert.expertise_areas ≠ [] then [joinSpace expert.expertise_areas] else [])
      ++ expert.skills.interests ++ expert.skills.strengths
      ++ (if expert.profile.field_of_study ≠ "" then [expert.profile.field_of_study] else [])
      ++ (if expert.job_title ≠ "" then [expert.job_title] else [])
  pyLower (joinSpace parts)

/-- `ExpertMatchingModel.prepare_student_profile_text`: interests,
weaknesses, field of study and bio, space-joined and lowercased. -/
def prepareStudentProfileText (student : User) : String :=
  let parts :=
    student.skills.interests ++ student.skills.weaknesses
      ++ (if student.profile.field_of_study ≠ "" then [student.profile.field_of_study] else [])
      ++ (if student.profile.bio ≠ "" then [student.profile.bio] else [])
  pyLower (joinSpace parts)

/-- `ExpertMatchingModel.calculate_interest_overlap_score`: Jaccard of the
student's interests-plus-weaknesses against the expert's
expertise-plus-interests-plus-strengths, 0 when either side is empty. -/
def calculateInterestOverlapScore (student expert : User) : ℚ :=
  let studentNeeds := student.skills.interests.toFinset ∪ student.skills.weaknesses.toFinset
  let expertCapabilities := expert.expertise_areas.toFinset
    ∪ expert.skills.interests.toFinset ∪ expert.skills.strengths.toFinset
  if studentNeeds = ∅ ∨ expertCapabilities = ∅ then 0
  else if 0 < (studentNeeds ∪ expertCapabilities).card then
    ((studentNeeds ∩ expertCapabilities).card : ℚ) / ((studentNeeds ∪ expertCapabilities).card : ℚ)
  else 0

/-- The per-academic-level preferred years-of-experience band of
`calculate_experience_compatibility`, default `(0, 100)`. -/
def levelExperienceBand (student_level : String) : ℤ × ℤ :=
  if student_level = "undergraduate" then (0, 5)
  else if student_level = "graduate" then (2, 10)
  else if student_level = "phd" then (5, 20)
  else if student_level = "postdoc" then (8, 30)
  else (0, 100)

/-- `ExpertMatchingModel.calculate_experience_compatibility`: 1.0 inside the
band expected for the student's level, 0.7 below it, 0.9 above it. -/
def calculateExperienceCompatibility (student expert : User) : ℚ :=
  let band := levelExperienceBand student.profile.academic_level
  if band.1 ≤ expert.years_experience ∧ expert.years_experience ≤ band.2 then 1
  else if expert.years_experience < band.1 then 7/10
  else 9/10

/-- The hardcoded related-fields table of `calculate_field_alignment`. -/
def relatedFields : List (String × List String) :=
  [("computer science", ["software engineering", "data science", "ai", "machine learning"]),
   ("mathematics", ["statistics", "data science", "physics"]),
   ("physics", ["engineering", "mathematics"]),
   ("biology", ["chemistry", "biotechnology", "medicine"]),
   ("chemistry", ["biology", "biochemistry"]),
   ("business", ["economics", "finance", "marketing"])]

/-- `ExpertMatchingModel.calculate_field_alignment`: 0.5 when either field is
empty, 1.0 on equality, 0.8 on substring containment either way, 0.6 via the
related-fields table, 0.3 otherwise. -/
def calculateFieldAlignment (student expert : User) : ℚ :=
  let sf := pyLower student.profile.field_of_study
  let ef := pyLower expert.profile.field_of_study
  if sf = "" ∨ ef = "" then 1/2
  else if sf = ef then 1
  else if strContains ef sf || strContains sf ef then 4/5
  else if relatedFields.any (fun p =>
      (strContains sf p.1 && p.2.any (fun r => strContains ef r)) ||
      (strContains ef p.1 && p.2.any (fun r => strContains sf r))) then 3/5
  else 3/10

/-- The weighted combination `find_matches` assigns to one expert, with the
expert's TF-IDF text-similarity score passed in. -/
noncomputable def expertFinalScore (student expert : User) (textScore : ℝ) : ℝ :=
  0.40 * (calculateInterestOverlapScore student expert : ℝ)
    + 0.30 * textScore
    + 0.20 * (calculateFieldAlignment student expert : ℝ)
    + 0.10 * (calculateExperienceCompatibility student expert : ℝ)

/-- The state of `ExpertMatchingModel` after `train`: the stored expert
profiles (the TF-IDF vectors are recomputed from them on demand here). -/
structure ExpertState where
  is_trained : Bool
  expert_profiles : List User

/-- The TF-IDF text similarity `find_matches` reads for one expert: cosine of
the student text against the expert text in the vectorizer space fitted on
the stored expert corpus. -/
noncomputable def expertTextScore (st : ExpertState) (student expert : User) : ℝ :=
  corpusCosine (st.expert_profiles.map (fun e => tokenize (prepareExpertProfileText e)))
    (tokenize (prepareStudentProfileText student))
    (tokenize (prepareExpertProfileText expert))

/-- One entry of `find_matches`' result list, with the score breakdown and
the matched interest terms. -/
structure ExpertMatch where
  expert_id : String
  match_score : ℝ
  interest_overlap : ℚ
  text_similarity : ℝ
  field_alignment : ℚ
  experience_compatibility : ℚ
  matched_interests : Finset String

/-- `ExpertMatchingModel.find_matches`: empty when untrained; otherwise every
stored expert scored with the weighted combination, sorted by score
descending (stable), cut to `top_k`. -/
noncomputable def findExpertMatches (st : ExpertState) (student : User) (top_k : ℕ) :
    List ExpertMatch :=
  if st.is_trained = false then []
  else
    let ms := st.expert_profiles.map (fun e =>
      let t := expertTextScore st student e
      { expert_id := e.id
        match_score := expertFinalScore student e t
        interest_overlap := calculateInterestOverlapScore student e
        text_similarity := t
        field_alignment := calculateFieldAlignment student e
        experience_compatibility := calculateExperienceCompatibility student e
        matched_interests :=
          student.skills.interests.toFinset ∩ e.expertise_areas.toFinset } )
    (ms.mergeSort (fun a b => decide (b.match_score ≤ a.match_score))).take top_k

/-! ### TopicNLPModel (ml/topic_nlp_model.py) -/

/-- The `TopicNLPModel` state: the trained flag and the probability
distribution the fitted sklearn pipeline implements (abstracted as a
function, since its value depends on the bundled training corpus). -/
structure TopicState where
  is_trained : Bool
  fitted_proba : String → List (String × ℚ)

/-- `TopicNLPModel.train` as `predict_topic` invokes it: marks the pipeline
fitted (the fitted distribution itself is the state's abstracted
function). -/
def trainTopic (st : TopicState) : TopicState :=
  { st with is_trained := true }

/-- `TopicNLPModel.predict_topic`: trains first when untrained, answers
`{"Other": 1.0}` on empty or whitespace-only text, otherwise reads the
fitted pipeline's distribution on the lowercased text. -/
def predictTopic (st : TopicState) (text : String) : List (String × ℚ) × TopicState :=
  let st1 := if st.is_trained then st else trainTopic st
  if pyStrip text = "" then ([("Other", 1)], st1)
  else (st1.fitted_proba (pyLower text), st1)

/-- Python `max(probabilities, key=probabilities.get)` over a nonempty
association list: the first entry of maximal probability. -/
def maxProbEntry (p : String × ℚ) (rest : List (String × ℚ)) : String × ℚ :=
  rest.foldl (fun best q => if best.2 < q.2 then q else best) p

/-- `TopicNLPModel.get_top_topic`: the most likely topic with its
probability; `("Other", 0.0)` only when the distribution is empty. -/
def getTopTopic (st : TopicState) (text : String) : (String × ℚ) × TopicState :=
  let r := predictTopic st text
  match r.1 with
  | [] => (("Other", 0), r.2)
  | p :: rest => (maxProbEntry p rest, r.2)

/-! ### FeedbackPredictor (ml/feedback_predictor.py) -/

/-- `FeedbackPredictor.preprocess_text`: lowercase, keep only letters and
whitespace, collapse whitespace runs to single spaces. -/
def preprocessText (text : String) : String :=
  let kept := ((pyLower text).toList.filter (fun c => c.isAlpha || c.isWhitespace)).asString
  joinSpace (pyWords kept)

/-- The sentiment classifier's answer on one preprocessed text: the
predicted label with its confidence. -/
structure SentimentResult where
  sentiment : String
  confidence : ℚ
deriving Repr, DecidableEq

/-- The quality classifier's answer on one preprocessed text. -/
structure QualityResult where
  quality : String
  confidence : ℚ
deriving Repr, DecidableEq

/-- The `FeedbackPredictor` state: the two optional fitted sklearn pipelines,
each abstracted as a function from preprocessed text to a prediction with
confidence. -/
structure FeedbackState where
  sentiment_model : Option (String → String × ℚ)
  quality_model : Option (String → String × ℚ)

/-- `FeedbackPredictor.predict_sentiment`: neutral with confidence 0 when
the model is missing or the preprocessed text is empty, otherwise the
pipeline's prediction. -/
def predictSentiment (st : FeedbackState) (text : String) : SentimentResult :=
  match st.sentiment_model with
  | none => ⟨"neutral", 0⟩
  | some m =>
    let processed := preprocessText text
    if pyStrip processed = "" then ⟨"neutral", 0⟩
    else ⟨(m processed).1, (m processed).2⟩

/-- `FeedbackPredictor.predict_quality`: average with confidence 0 when the
model is missing or the preprocessed text is empty, otherwise the pipeline's
prediction. -/
def predictQuality (st : FeedbackState) (text : String) : QualityResult :=
  match st.quality_model with
  | none => ⟨"average", 0⟩
  | some m =>
    let processed := preprocessText text
    if pyStrip processed = "" then ⟨"average", 0⟩
    else ⟨(m processed).1, (m processed).2⟩

/-- The `sentiment_scores` table of `_calculate_overall_score`, default 3. -/
def sentimentBaseScore (s : String) : ℚ :=
  if s = "negative" then 1 else if s = "neutral" then 3
  else if s = "positive" then 5 else 3

/-- The `quality_scores` table of `_calculate_overall_score`, default 2.5. -/
def qualityBaseScore (q : String) : ℚ :=
  if q = "poor" then 1 else if q = "average" then 5/2
  else if q = "good" then 4 else if q = "excellent" then 5 else 5/2

/-- Round-half-to-even on rationals, as Python's builtin `round` behaves. -/
def roundHalfEven (q : ℚ) : ℤ :=
  let f := ⌊q⌋
  let r := q - (f : ℚ)
  if r < 1/2 then f
  else if 1/2 < r then f + 1
  else if Even f then f else f + 1

/-- Python `round(x, 2)`. -/
def roundTo2 (x : ℚ) : ℚ :=
  (roundHalfEven (x * 100) : ℚ) / 100

/-- `FeedbackPredictor._calculate_overall_score`: confidence-weighted mean of
the sentiment and quality base scores, averaged with the numeric rating when
one is supplied, rounded to two decimals. -/
def calculateOverallScore (sres : SentimentResult) (qres : QualityResult)
    (numerical_rating : Option ℚ) : ℚ :=
  let mlScore := (sentimentBaseScore sres.sentiment * sres.confidence
    + qualityBaseScore qres.quality * qres.confidence) / 2
  let overall := match numerical_rating with
    | some r => (mlScore + r) / 2
    | none => mlScore
  roundTo2 overall

/-- The text statistics `_get_text_statistics` extracts. -/
structure TextStats where
  word_count : ℕ
  sentence_count : ℕ
  avg_word_length : ℚ
  text_length : ℕ
deriving Repr, DecidableEq

/-- `FeedbackPredictor._get_text_statistics`. -/
def getTextStatistics (text : String) : TextStats :=
  let words := pyWords text
  let sentences := pySplitOnChar (Char.ofNat 46) text
  { word_count := words.length
    sentence_count := (sentences.filter (fun s => pyStrip s ≠ "")).length
    avg_word_length :=
      if words = [] then 0
      else ((words.map (fun w => (w.length : ℚ))).sum) / (words.length : ℚ)
    text_length := text.length }

/-- `FeedbackPredictor._extract_key_phrases`: the words longer than 3
characters sorted by frequency descending (stable over first occurrence
order), first 5. -/
def extractKeyPhrases (text : String) : List String :=
  let words := pyWords (preprocessText text)
  let longWords := words.filter (fun w => 3 < w.length)
  let distinct := longWords.dedup
  let freq := distinct.map (fun w => (w, longWords.count w))
  ((freq.mergeSort (fun a b => decide (b.2 ≤ a.2))).take 5).map Prod.fst

/-- The record `analyze_feedback_comprehensive` assembles. -/
structure FeedbackAnalysis where
  original_text : String
  numerical_rating : Option ℚ
  sentiment_analysis : SentimentResult
  quality_assessment : QualityResult
  text_statistics : TextStats
  key_phrases : List String
  overall_score : ℚ
  insights : List String
deriving Repr, DecidableEq

/-- `FeedbackPredictor._generate_insights`. -/
def generateInsights (sentiment : String) (quality : String) (overall_score : ℚ)
    (word_count : ℕ) : List String :=
  (if sentiment = "positive"
    then ["Positive feedback indicates successful learning experience"]
   else if sentiment = "negative"
    then ["Negative sentiment suggests areas for improvement needed"]
   else [])
  ++ (if quality = "excellent"
    then ["High-quality session with exceptional delivery"]
   else if quality = "poor"
    then ["Session quality needs significant improvement"]
   else [])
  ++ (if 4 ≤ overall_score
    then ["Strong overall performance with high satisfaction"]
   else if overall_score ≤ 2
    then ["Low satisfaction score requires immediate attention"]
   else [])
  ++ (if 50 < word_count
    then ["Detailed feedback provides rich information for improvement"]
   else if word_count < 10
    then ["Brief feedback may lack sufficient detail for analysis"]
   else [])

/-- `FeedbackPredictor.analyze_feedback_comprehensive`. -/
def analyzeFeedbackComprehensive (st : FeedbackState) (feedback_text : String)
    (numerical_rating : Option ℚ) : FeedbackAnalysis :=
  let sres := predictSentiment st feedback_text
  let qres := predictQuality st feedback_text
  let stats := getTextStatistics feedback_text
  let overall := calculateOverallScore sres qres numerical_rating
  { original_text := feedback_text
    numerical_rating := numerical_rating
    sentiment_analysis := sres
    quality_assessment := qres
    text_statistics := stats
    key_phrases := extractKeyPhrases feedback_text
    overall_score := overall
    insights := generateInsights sres.sentiment qres.quality overall stats.word_count }

/-! ### Claim-side definitions (written from the spec's words, for the
refinement comparisons) -/

/-- The 11-component encoding the spec claims for `encode(user)`:
`[academicLevelCode, fieldCode, 4 binary learningPreference flags,
|interests|, |strengths|, |weaknesses|, points, level]`. -/
def claimElevenVector (u : User) : List ℚ :=
  [ (levelCode u.profile.academic_level : ℚ),
    (fieldCode u.profile.field_of_study : ℚ),
    (if "visual" ∈ u.profile.learning_preferences then 1 else 0),
    (if "auditory" ∈ u.profile.learning_preferences then 1 else 0),
    (if "kinesthetic" ∈ u.profile.learning_preferences then 1 else 0),
    (if "reading" ∈ u.profile.learning_preferences then 1 else 0),
    (u.skills.interests.length : ℚ),
    (u.skills.strengths.length : ℚ),
    (u.skills.weaknesses.length : ℚ),
    (u.points : ℚ),
    (u.level : ℚ) ]

/-- Field alignment as the claim words it: 1.0 on exact field match, 0.8 on
substring match, 0.6 via the related-field table, and 0.3 in every other
case (no empty-field special case). -/
def claimFieldAlignment (student expert : User) : ℚ :=
  let sf := pyLower student.profile.field_of_study
  let ef := pyLower expert.profile.field_of_study
  if sf = ef then 1
  else if strContains ef sf || strContains sf ef then 4/5
  else if relatedFields.any (fun p =>
      (strContains sf p.1 && p.2.any (fun r => strContains ef r)) ||
      (strContains ef p.1 && p.2.any (fun r => strContains sf r))) then 3/5
  else 3/10

/-- Field alignment as the amended claim words it: additionally 0.5 whenever
either side's field of study is empty, checked first. -/
def claimFieldAlignmentAmended (student expert : User) : ℚ :=
  let sf := pyLower student.profile.field_of_study
  let ef := pyLower expert.profile.field_of_study
  if sf = "" ∨ ef = "" then 1/2 else claimFieldAlignment student expert

/-- Experience compatibility as the claim words it: 1.0 when the expert's
years of experience lie within the band expected for the student's academic
level, 0.7 below the band, 0.9 above it. -/
def claimExperienceCompatibility (student expert : User) : ℚ :=
  let band := levelExperienceBand student.profile.academic_level
  if expert.years_experience < band.1 then 7/10
  else if band.2 < expert.years_experience then 9/10
  else 1

/-- Jaccard similarity of two finite sets of strings, 0 on an empty union. -/
def jaccardSet (a b : Finset String) : ℚ :=
  if a ∪ b = ∅ then 0 else ((a ∩ b).card : ℚ) / ((a ∪ b).card : ℚ)

/-! ### Concrete sample inputs for witnesses and counterexamples -/

/-- A base user with every dictionary `.get` default. -/
def defUser : User :=
  { id := ""
    role := "student"
    is_active := true
    profile :=
      { academic_level := "undergraduate"
        field_of_study := ""
        learning_preferences := []
        availability := []
        bio := "" }
    skills := { interests := [], strengths := [], weaknesses := [] }
    points := 0
    level := 1
    session_count := 0
    avg_rating := 3
    expertise_areas := []
    years_experience := 0
    job_title := "" }

/-- Sample user: a data-science learner. -/
def uAlice : User :=
  { defUser with
    id := "alice"
    profile :=
      { defUser.profile with
        field_of_study := "computer science"
        learning_preferences := ["visual"]
        availability := [("monday", ["am", "pm"])] }
    skills := { interests := ["ml", "web"], strengths := ["python"], weaknesses := ["stats"] } }

/-- Sample user: a statistics mentor. -/
def uBob : User :=
  { defUser with
    id := "bob"
    role := "mentor"
    points := 150
    profile :=
      { defUser.profile with
        field_of_study := "mathematics"
        learning_preferences := ["visual", "reading"]
        availability := [("monday", ["am"])] }
    skills := { interests := ["ml", "data"], strengths := ["stats"], weaknesses := ["web"] } }

/-- Sample candidate whose id sorts after `cCandA` but appears first in the
pool. -/
def cCandB : User :=
  { defUser with
    id := "b"
    skills := { interests := ["ml"], strengths := [], weaknesses := [] } }

/-- Sample candidate whose id sorts before `cCandB`. -/
def cCandA : User :=
  { defUser with
    id := "a"
    skills := { interests := ["ml"], strengths := [], weaknesses := [] } }

/-- Sample requesting user for the rule-based fallback. -/
def cUser : User :=
  { defUser with
    id := "u"
    skills := { interests := ["ml"], strengths := [], weaknesses := [] } }

/-- Resource fully covering the sample user's interests and weaknesses, with
the worst rating and popularity. -/
def rFull : Resource :=
  { id := "match", topics := ["algebra"], level := "undergraduate",
    average_rating := 0, popularity_score := 0 }

/-- Resource with zero topic overlap, best rating and popularity. -/
def rZero : Resource :=
  { id := "zero", topics := [], level := "undergraduate",
    average_rating := 5, popularity_score := 1 }

/-- Resource with zero topic overlap and the same rating, popularity and
level as `rFull`. -/
def rZeroSame : Resource :=
  { id := "z2", topics := [], level := "undergraduate",
    average_rating := 0, popularity_score := 0 }

/-- Sample user interested only in algebra. -/
def uAlgebra : User :=
  { defUser with
    id := "s"
    skills := { interests := ["algebra"], strengths := [], weaknesses := [] } }

/-- Student with an empty field of study (for the field-alignment edge). -/
def sNoField : User :=
  { defUser with id := "stud" }

/-- Expert with an empty field of study. -/
def eNoField : User :=
  { defUser with id := "exp", years_experience := 3 }

/-- A concrete topic-classifier state whose fitted pipeline answers an empty
distribution (its value is irrelevant on empty text). -/
def topicStateSample : TopicState :=
  { is_trained := true, fitted_proba := fun _ => [] }

/-- A concrete feedback-predictor state with both pipelines fitted to
constant answers (their values are irrelevant on empty text). -/
def feedbackStateSample : FeedbackState :=
  { sentiment_model := some (fun _ => ("positive", 1))
    quality_model := some (fun _ => ("good", 1)) }

/-- A concrete untrained recommendation-model state. -/
def recStateEmpty : RecState :=
  { user_similarity_model := none, scaler := none, user_features := none, user_ids := none }

/-- A concrete untrained service state. -/
def mlStateEmpty : MLState :=
  { recTrained := false, recModel := recStateEmpty }

/-! ### Component bounds -/

theorem calcSkillCompatibility_nonneg (u1 u2 : User) (mt : String) :
    0 ≤ calcSkillCompatibility u1 u2 mt := by
  unfold calcSkillCompatibility
  dsimp only
  split_ifs <;> positivity

theorem calcSkillCompatibility_le_one (u1 u2 : User) (mt : String) :
    calcSkillCompatibility u1 u2 mt ≤ 1 := by
  unfold calcSkillCompatibility
  dsimp only
  split_ifs with h1 h2 h3 h4 h5
  · norm_num
  · rw [div_le_one]
    · exact_mod_cast Finset.card_le_card Finset.inter_subset_right
    · have : u1.skills.weaknesses.toFinset.Nonempty := Finset.nonempty_iff_ne_empty.mpr h2
      exact_mod_cast Finset.card_pos.mpr this
  · norm_num
  · rw [div_le_one]
    · have hA : (u1.skills.strengths.toFinset ∩ u2.skills.weaknesses.toFinset).card
          ≤ u2.skills.weaknesses.toFinset.card :=
        Finset.card_le_card Finset.inter_subset_right
      have hB : (u2.skills.strengths.toFinset ∩ u1.skills.weaknesses.toFinset).card
          ≤ u1.skills.weaknesses.toFinset.card :=
        Finset.card_le_card Finset.inter_subset_right
      have hsum : (u1.skills.strengths.toFinset ∩ u2.skills.weaknesses.toFinset).card
          + (u2.skills.strengths.toFinset ∩ u1.skills.weaknesses.toFinset).card
          ≤ u1.skills.weaknesses.toFinset.card + u2.skills.weaknesses.toFinset.card := by
        omega
      exact_mod_cast hsum
    · have hpos : 0 < u1.skills.weaknesses.toFinset.card + u2.skills.weaknesses.toFinset.card :=
        Nat.pos_of_ne_zero h4
      exact_mod_cast hpos
  · norm_num
  · rw [div_le_one]
    · exact_mod_cast Finset.card_le_card (Finset.inter_subset_union)
    · have : (u1.skills.interests.toFinset ∪ u2.skills.interests.toFinset).Nonempty :=
        Finset.nonempty_iff_ne_empty.mpr h5
      exact_mod_cast Finset.card_pos.mpr this

theorem dayOverlap_nonneg (s1 s2 : List String) : 0 ≤ dayOverlap s1 s2 := by
  unfold dayOverlap
  dsimp only
  split_ifs <;> positivity

theorem dayOverlap_le_one (s1 s2 : List String) : dayOverlap s1 s2 ≤ 1 := by
  unfold dayOverlap
  dsimp only
  split_ifs with h
  · norm_num
  · rw [div_le_one]
    · have h1 : (s1.toFinset ∩ s2.toFinset).card ≤ s1.toFinset.card :=
        Finset.card_le_card Finset.inter_subset_left
      have h2 : s1.toFinset.card ≤ max s1.toFinset.card s2.toFinset.card := le_max_left _ _
      exact_mod_cast le_trans h1 h2
    · have hne : (s1.toFinset ∩ s2.toFinset).Nonempty := Finset.nonempty_iff_ne_empty.mpr h
      have h1 : 0 < (s1.toFinset ∩ s2.toFinset).card := Finset.card_pos.mpr hne
      have h2 : 0 < max s1.toFinset.card s2.toFinset.card :=
        lt_of_lt_of_le h1 (le_trans (Finset.card_le_card Finset.inter_subset_left)
          (le_max_left _ _))
      exact_mod_cast h2

theorem calcScheduleCompatibility_nonneg (u1 u2 : User) :
    0 ≤ calcScheduleCompatibility u1 u2 := by
  unfold calcScheduleCompatibility
  dsimp only
  split_ifs with h
  · norm_num
  · apply div_nonneg
    · apply List.sum_nonneg
      intro x hx
      obtain ⟨p, _, rfl⟩ := List.mem_map.mp hx
      exact dayOverlap_nonneg _ _
    · positivity

theorem calcScheduleCompatibility_le_one (u1 u2 : User) :
    calcScheduleCompatibility u1 u2 ≤ 1 := by
  unfold calcScheduleCompatibility
  dsimp only
  split_ifs with h
  · norm_num
  · set cd := u1.profile.availability.filter
      (fun p => (u2.profile.availability.lookup p.1).isSome) with hcd
    rw [div_le_one]
    · have hsum := List.sum_le_card_nsmul (cd.map (fun p =>
          dayOverlap p.2 ((u2.profile.availability.lookup p.1).getD []))) 1
        (by
          intro x hx
          obtain ⟨p, _, rfl⟩ := List.mem_map.mp hx
          exact dayOverlap_le_one _ _)
      simp only [List.length_map, nsmul_eq_mul, mul_one] at hsum
      calc (cd.map (fun p =>
          dayOverlap p.2 ((u2.profile.availability.lookup p.1).getD []))).sum
          ≤ (cd.length : ℚ) := hsum
        _ ≤ (max cd.length 1 : ℚ) := by exact_mod_cast Nat.le_max_left _ _
    · have : 0 < max cd.length 1 := lt_of_lt_of_le Nat.one_pos (Nat.le_max_right _ _)
      exact_mod_cast this

theorem calcLearningStyleCompatibility_nonneg (u1 u2 : User) :
    0 ≤ calcLearningStyleCompatibility u1 u2 := by
  unfold calcLearningStyleCompatibility
  dsimp only
  split_ifs <;> positivity

theorem calcLearningStyleCompatibility_le_one (u1 u2 : User) :
    calcLearningStyleCompatibility u1 u2 ≤ 1 := by
  unfold calcLearningStyleCompatibility
  dsimp only
  split_ifs with h1 h2
  · norm_num
  · norm_num
  · rw [div_le_one]
    · exact_mod_cast Finset.card_le_card Finset.inter_subset_union
    · have : (u1.profile.learning_preferences.toFinset
          ∪ u2.profile.learning_preferences.toFinset).Nonempty :=
        Finset.nonempty_iff_ne_empty.mpr h2
      exact_mod_cast Finset.card_pos.mpr this

theorem docFreq_le_length (corpus : List (List String)) (t : String) :
    docFreq corpus t ≤ corpus.length :=
  List.countP_le_length _

theorem corpusIdf_nonneg (corpus : List (List String)) (t : String) :
    0 ≤ corpusIdf corpus t := by
  unfold corpusIdf
  have hlog : 0 ≤ Real.log ((1 + (corpus.length : ℝ)) / (1 + (docFreq corpus t : ℝ))) := by
    apply Real.log_nonneg
    rw [le_div_iff₀ (by positivity)]
    have := docFreq_le_length corpus t
    have : (docFreq corpus t : ℝ) ≤ (corpus.length : ℝ) := by exact_mod_cast this
    linarith
  linarith

theorem tfidfWeight_nonneg (corpus : List (List String)) (doc : List String) (t : String) :
    0 ≤ tfidfWeight corpus doc t := by
  unfold tfidfWeight
  exact mul_nonneg (by positivity) (corpusIdf_nonneg corpus t)

theorem corpusCosine_nonneg (corpus : List (List String)) (d1 d2 : List String) :
    0 ≤ corpusCosine corpus d1 d2 := by
  unfold corpusCosine
  dsimp only
  split_ifs with h
  · exact le_refl 0
  · push_neg at h
    apply div_nonneg
    · apply Finset.sum_nonneg
      intro t _
      exact mul_nonneg (tfidfWeight_nonneg _ _ _) (tfidfWeight_nonneg _ _ _)
    · exact mul_nonneg (Real.sqrt_nonneg _) (Real.sqrt_nonneg _)

theorem corpusCosine_le_one (corpus : List (List String)) (d1 d2 : List String) :
    corpusCosine corpus d1 d2 ≤ 1 := by
  unfold corpusCosine
  dsimp only
  split_ifs with h
  · norm_num
  · push_neg at h
    obtain ⟨h1, h2⟩ := h
    have hpos1 : 0 < Real.sqrt (∑ t ∈ corpusVocab corpus, tfidfWeight corpus d1 t ^ 2) :=
      lt_of_le_of_ne (Real.sqrt_nonneg _) (Ne.symm h1)
    have hpos2 : 0 < Real.sqrt (∑ t ∈ corpusVocab corpus, tfidfWeight corpus d2 t ^ 2) :=
      lt_of_le_of_ne (Real.sqrt_nonneg _) (Ne.symm h2)
    rw [div_le_one (by positivity)]
    exact Real.sum_mul_le_sqrt_mul_sqrt _ _ _

theorem calcTopicRelevance_nonneg (u1 u2 : User) : 0 ≤ calcTopicRelevance u1 u2 := by
  unfold calcTopicRelevance
  dsimp only
  split_ifs with h
  · norm_num
  · exact corpusCosine_nonneg _ _ _

theorem calcTopicRelevance_le_one (u1 u2 : User) : calcTopicRelevance u1 u2 ≤ 1 := by
  unfold calcTopicRelevance
  dsimp only
  split_ifs with h
  · norm_num
  · exact corpusCosine_le_one _ _ _

/-- C1: for every pair of user profiles and every matchType among
mentor_mentee, peer and study_partner, the MatchScore returned by
`_calculate_match_score` has each of its four components in [0,1], and its
overall score equals (exactly, hence within 1e-9) the weighted sum of the
components with weight order [skill, schedule, style, topic] given by
[0.4,0.2,0.2,0.2] for mentor_mentee, [0.3,0.25,0.25,0.2] for peer and
[0.25,0.3,0.25,0.2] for study_partner. -/
theorem matchScore_components_bounded_overall_weighted (u1 u2 : User) (mt : String)
    (h : mt = "mentor_mentee" ∨ mt = "peer" ∨ mt = "study_partner") :
    (0 ≤ (calcMatchScore u1 u2 mt).skill_compatibility
        ∧ (calcMatchScore u1 u2 mt).skill_compatibility ≤ 1)
    ∧ (0 ≤ (calcMatchScore u1 u2 mt).schedule_compatibility
        ∧ (calcMatchScore u1 u2 mt).schedule_compatibility ≤ 1)
    ∧ (0 ≤ (calcMatchScore u1 u2 mt).learning_style_compatibility
        ∧ (calcMatchScore u1 u2 mt).learning_style_compatibility ≤ 1)
    ∧ (0 ≤ (calcMatchScore u1 u2 mt).topic_relevance
        ∧ (calcMatchScore u1 u2 mt).topic_relevance ≤ 1)
    ∧ (mt = "mentor_mentee" → (calcMatchScore u1 u2 mt).overall_score
        = 0.4 * (calcMatchScore u1 u2 mt).skill_compatibility
          + 0.2 * (calcMatchScore u1 u2 mt).schedule_compatibility
          + 0.2 * (calcMatchScore u1 u2 mt).learning_style_compatibility
          + 0.2 * (calcMatchScore u1 u2 mt).topic_relevance)
    ∧ (mt = "peer" → (calcMatchScore u1 u2 mt).overall_score
        = 0.3 * (calcMatchScore u1 u2 mt).skill_compatibility
          + 0.25 * (calcMatchScore u1 u2 mt).schedule_compatibility
          + 0.25 * (calcMatchScore u1 u2 mt).learning_style_compatibility
          + 0.2 * (calcMatchScore u1 u2 mt).topic_relevance)
    ∧ (mt = "study_partner" → (calcMatchScore u1 u2 mt).overall_score
        = 0.25 * (calcMatchScore u1 u2 mt).skill_compatibility
          + 0.3 * (calcMatchScore u1 u2 mt).schedule_compatibility
          + 0.25 * (calcMatchScore u1 u2 mt).learning_style_compatibility
          + 0.2 * (calcMatchScore u1 u2 mt).topic_relevance) := by
  refine ⟨⟨?_, ?_⟩, ⟨?_, ?_⟩, ⟨?_, ?_⟩, ⟨?_, ?_⟩, ?_, ?_, ?_⟩
  · simp only [calcMatchScore]
    exact_mod_cast calcSkillCompatibility_nonneg u1 u2 mt
  · simp only [calcMatchScore]
    exact_mod_cast calcSkillCompatibility_le_one u1 u2 mt
  · simp only [calcMatchScore]
    exact_mod_cast calcScheduleCompatibility_nonneg u1 u2
  · simp only [calcMatchScore]
    exact_mod_cast calcScheduleCompatibility_le_one u1 u2
  · simp only [calcMatchScore]
    exact_mod_cast calcLearningStyleCompatibility_nonneg u1 u2
  · simp only [calcMatchScore]
    exact_mod_cast calcLearningStyleCompatibility_le_one u1 u2
  · simp only [calcMatchScore]
    exact calcTopicRelevance_nonneg u1 u2
  · simp only [calcMatchScore]
    exact calcTopicRelevance_le_one u1 u2
  · intro hmt
    subst hmt
    have hw : matchWeights "mentor_mentee" = (0.4, 0.2, 0.2, 0.2) := by
      unfold matchWeights
      rw [if_pos rfl]
    simp only [calcMatchScore, hw]
    ring
  · intro hmt
    subst hmt
    have hw : matchWeights "peer" = (0.3, 0.25, 0.25, 0.2) := by
      unfold matchWeights
      rw [if_neg (by decide), if_pos rfl]
    simp only [calcMatchScore, hw]
    ring
  · intro hmt
    subst hmt
    have hw : matchWeights "study_partner" = (0.25, 0.3, 0.25, 0.2) := by
      unfold matchWeights
      rw [if_neg (by decide), if_neg (by decide), if_pos rfl]
    simp only [calcMatchScore, hw]
    ring

/-- C1 witness: the theorem instantiated at two concrete users and the peer
match type. -/
theorem matchScore_components_bounded_overall_weighted_witness :
    (0 ≤ (calcMatchScore uAlice uBob "peer").skill_compatibility
        ∧ (calcMatchScore uAlice uBob "peer").skill_compatibility ≤ 1)
    ∧ (0 ≤ (calcMatchScore uAlice uBob "peer").schedule_compatibility
        ∧ (calcMatchScore uAlice uBob "peer").schedule_compatibility ≤ 1)
    ∧ (0 ≤ (calcMatchScore uAlice uBob "peer").learning_style_compatibility
        ∧ (calcMatchScore uAlice uBob "peer").learning_style_compatibility ≤ 1)
    ∧ (0 ≤ (calcMatchScore uAlice uBob "peer").topic_relevance
        ∧ (calcMatchScore uAlice uBob "peer").topic_relevance ≤ 1)
    ∧ ("peer" = "mentor_mentee" → (calcMatchScore uAlice uBob "peer").overall_score
        = 0.4 * (calcMatchScore uAlice uBob "peer").skill_compatibility
          + 0.2 * (calcMatchScore uAlice uBob "peer").schedule_compatibility
          + 0.2 * (calcMatchScore uAlice uBob "peer").learning_style_compatibility
          + 0.2 * (calcMatchScore uAlice uBob "peer").topic_relevance)
    ∧ ("peer" = "peer" → (calcMatchScore uAlice uBob "peer").overall_score
        = 0.3 * (calcMatchScore uAlice uBob "peer").skill_compatibility
          + 0.25 * (calcMatchScore uAlice uBob "peer").schedule_compatibility
          + 0.25 * (calcMatchScore uAlice uBob "peer").learning_style_compatibility
          + 0.2 * (calcMatchScore uAlice uBob "peer").topic_relevance)
    ∧ ("peer" = "study_partner" → (calcMatchScore uAlice uBob "peer").overall_score
        = 0.25 * (calcMatchScore uAlice uBob "peer").skill_compatibility
          + 0.3 * (calcMatchScore uAlice uBob "peer").schedule_compatibility
          + 0.25 * (calcMatchScore uAlice uBob "peer").learning_style_compatibility
          + 0.2 * (calcMatchScore uAlice uBob "peer").topic_relevance) :=
  matchScore_components_bounded_overall_weighted uAlice uBob "peer" (Or.inr (Or.inl rfl))

/-- C2: `_calculate_schedule_compatibility` returns exactly 0.5 whenever
either user's availability map is empty, `_calculate_learning_style_compatibility`
returns exactly 0.5 whenever either user's learning-preference set is empty,
and `_calculate_topic_relevance` returns exactly 0.5 whenever either user's
field-plus-interests text blob is empty. -/
theorem empty_input_neutral_defaults (u1 u2 : User) :
    (u1.profile.availability = [] ∨ u2.profile.availability = [] →
      calcScheduleCompatibility u1 u2 = 1/2)
    ∧ (u1.profile.learning_preferences.toFinset = ∅
        ∨ u2.profile.learning_preferences.toFinset = ∅ →
      calcLearningStyleCompatibility u1 u2 = 1/2)
    ∧ (topicText u1 = "" ∨ topicText u2 = "" →
      calcTopicRelevance u1 u2 = 1/2) := by
  refine ⟨?_, ?_, ?_⟩
  · intro h
    unfold calcScheduleCompatibility
    simp only [if_pos h]
  · intro h
    unfold calcLearningStyleCompatibility
    simp only [if_pos h]
  · intro h
    unfold calcTopicRelevance
    simp only [if_pos h]

/-- C2 witness: the three defaults at concrete users with empty
availability, empty preferences and an empty text blob. -/
theorem empty_input_neutral_defaults_witness :
    calcScheduleCompatibility defUser uBob = 1/2
    ∧ calcLearningStyleCompatibility defUser uBob = 1/2
    ∧ calcTopicRelevance defUser uBob = 1/2 :=
  ⟨(empty_input_neutral_defaults defUser uBob).1 (Or.inl rfl),
   (empty_input_neutral_defaults defUser uBob).2.1 (Or.inl (by decide)),
   (empty_input_neutral_defaults defUser uBob).2.2 (Or.inl (by decide))⟩

/-- C10: when the requesting user's weaknesses list is empty, the
mentor_mentee flow of `find_potential_matches` returns the empty list
immediately: no candidate of the pool is scored or returned. -/
theorem mentor_flow_empty_weaknesses_returns_empty (user : User) (pool : List User)
    (limit : ℕ) (h : user.skills.weaknesses = []) :
    findPotentialMatches user pool "mentor_mentee" limit = [] := by
  unfold findPotentialMatches findMentors
  simp [h]

/-- C10 witness: a concrete weakness-free user against a nonempty pool of
otherwise attractive candidates. -/
theorem mentor_flow_empty_weaknesses_returns_empty_witness :
    findPotentialMatches cUser [uBob, uAlice] "mentor_mentee" 10 = [] :=
  mentor_flow_empty_weaknesses_returns_empty cUser [uBob, uAlice] 10 (by decide)

/-- C3: training the user-similarity model on a corpus of fewer than 3 users
returns false and leaves the whole model state (stored vectors, ids, scaler
statistics) unchanged; the service records the failure in its status flag,
and a subsequent user-recommendation query over a pool still smaller than 3
takes the deterministic rule-based fallback instead of the k-NN path. -/
theorem train_small_corpus_fails_query_falls_back
    (s : MLState) (corpus : List User) (user : User) (pool : List User) (n : ℕ)
    (hc : corpus.length < 3) (hp : pool.length < 3) :
    trainUserSimilarityModel s.recModel corpus = (false, s.recModel)
    ∧ trainRecommendationModel s corpus
        = (false, { recTrained := false, recModel := s.recModel })
    ∧ getUserRecommendations { recTrained := false, recModel := s.recModel } user pool n
        = (ruleOut (ruleBasedUserMatching user pool n),
            { recTrained := false, recModel := s.recModel }) := by
  have ht : trainUserSimilarityModel s.recModel corpus = (false, s.recModel) := by
    unfold trainUserSimilarityModel
    rw [if_pos hc]
  refine ⟨ht, ?_, ?_⟩
  · unfold trainRecommendationModel
    rw [ht]
  · unfold getUserRecommendations
    rw [if_pos rfl, if_neg (by omega)]

/-- C3 witness: the failed training and the fallback query at a concrete
untrained state, an empty corpus and a one-user pool. -/
theorem train_small_corpus_fails_query_falls_back_witness :
    trainUserSimilarityModel mlStateEmpty.recModel [] = (false, mlStateEmpty.recModel)
    ∧ trainRecommendationModel mlStateEmpty []
        = (false, { recTrained := false, recModel := mlStateEmpty.recModel })
    ∧ getUserRecommendations { recTrained := false, recModel := mlStateEmpty.recModel }
        cUser [cCandB] 5
        = (ruleOut (ruleBasedUserMatching cUser [cCandB] 5),
            { recTrained := false, recModel := mlStateEmpty.recModel }) :=
  train_small_corpus_fails_query_falls_back mlStateEmpty [] cUser [cCandB] 5
    (by decide) (by decide)

/-- C4 counterexample: two candidates with equal positive rule-based scores
are returned in candidate-pool order (here ids "b" then "a"), not in
id-ascending order as the claim states. -/
theorem ruleBased_tie_order_counterexample :
    ruleBasedScore cUser cCandB = ruleBasedScore cUser cCandA
    ∧ 0 < ruleBasedScore cUser cCandB
    ∧ (ruleBasedUserMatching cUser [cCandB, cCandA] 5).map RuleMatch.user_id = ["b", "a"]
    ∧ ¬ (ruleBasedUserMatching cUser [cCandB, cCandA] 5).map RuleMatch.user_id
        = ["a", "b"] := by
  have key : ruleBasedUserMatching cUser [cCandB, cCandA] 5
      = [⟨"b", 3/5⟩, ⟨"a", 3/5⟩] := by
    norm_num +decide [ruleBasedUserMatching, ruleBasedEntry, ruleBasedScore, cUser, cCandB,
      cCandA, defUser, mlLevelToNumber, pyLower, strContains, isInfixB, List.asString,
      List.mergeSort, List.merge, List.filterMap]
  have hb : ruleBasedScore cUser cCandB = 3/5 := by
    norm_num +decide [ruleBasedScore, cUser, cCandB, defUser, mlLevelToNumber, pyLower,
      strContains, isInfixB, List.asString]
  have ha : ruleBasedScore cUser cCandA = 3/5 := by
    norm_num +decide [ruleBasedScore, cUser, cCandA, defUser, mlLevelToNumber, pyLower,
      strContains, isInfixB, List.asString]
  rw [key, hb, ha]
  refine ⟨rfl, by norm_num, rfl, by decide⟩

/-- C4 amended: the rule-based fallback returns the first `n` entries of a
list that is a permutation of the positively-scored candidates (other than
the requester, each carrying its rule-based score) sorted by score
descending; ties keep candidate-pool order (Python's stable sort), they are
not re-broken by id, and candidates with score 0 are omitted.  The output is
a pure function of (user, candidatePool, n). -/
theorem ruleBased_matching_sorted_desc_positive_scores
    (user : User) (pool : List User) (n : ℕ) :
    ∃ l : List RuleMatch,
      l.Perm (pool.filterMap (ruleBasedEntry user))
      ∧ l.Pairwise (fun a b => b.similarity_score ≤ a.similarity_score)
      ∧ ruleBasedUserMatching user pool n = l.take n := by
  refine ⟨(pool.filterMap (ruleBasedEntry user)).mergeSort
      (fun a b => decide (b.similarity_score ≤ a.similarity_score)), ?_, ?_, rfl⟩
  · exact List.mergeSort_perm _ _
  · have h := @List.sorted_mergeSort RuleMatch
      (fun a b : RuleMatch => decide (b.similarity_score ≤ a.similarity_score))
      (fun a b c hab hbc => by
        simp only [decide_eq_true_eq] at hab hbc ⊢
        exact le_trans hbc hab)
      (fun a b => by
        simp only [Bool.or_eq_true, decide_eq_true_eq]
        exact le_total b.similarity_score a.similarity_score)
      (pool.filterMap (ruleBasedEntry user))
    exact h.imp (fun hab => by simpa using hab)

/-- C5 counterexample: the feature vector has 13 components, not the 11 the
claim lists (session count and average rating are also encoded). -/
theorem featureVector_not_eleven_components :
    (featureVector uAlice).length = 13 ∧ (featureVector uAlice).length ≠ 11 := by
  decide

/-- C5 amended: `prepare_user_features` encodes every user as the claimed
11 components [academicLevelCode, fieldCode, 4 binary learningPreference
flags, |interests|, |strengths|, |weaknesses|, points, level] followed by
two further components, session count and average rating (13 in all); the
identical encoding function is applied to training-corpus rows and to the
query vector of `recommend_users`. -/
theorem featureVector_thirteen_components_shared_encoder (u : User) :
    featureVector u = claimElevenVector u ++ [(u.session_count : ℚ), u.avg_rating]
    ∧ (featureVector u).length = 13
    ∧ (∀ users : List User, (prepareUserFeatures users).1 = users.map featureVector)
    ∧ (prepareUserFeatures [u]).1 = [featureVector u] := by
  refine ⟨rfl, rfl, fun users => rfl, rfl⟩

/-- C6 counterexample: on empty text with no numeric rating the
comprehensive feedback analysis does return sentiment neutral and quality
average, but the overall score is 0.0 (both classifier confidences are 0 and
the score is confidence-weighted), not the 3.0 the claim states. -/
theorem classifyFeedback_empty_score_counterexample :
    (analyzeFeedbackComprehensive feedbackStateSample "" none).sentiment_analysis.sentiment
      = "neutral"
    ∧ (analyzeFeedbackComprehensive feedbackStateSample "" none).quality_assessment.quality
      = "average"
    ∧ (analyzeFeedbackComprehensive feedbackStateSample "" none).overall_score = 0
    ∧ (analyzeFeedbackComprehensive feedbackStateSample "" none).overall_score ≠ 3 := by
  have hs : predictSentiment feedbackStateSample "" = ⟨"neutral", 0⟩ := rfl
  have hq : predictQuality feedbackStateSample "" = ⟨"average", 0⟩ := rfl
  have hov : (analyzeFeedbackComprehensive feedbackStateSample "" none).overall_score = 0 := by
    show calculateOverallScore (predictSentiment feedbackStateSample "")
      (predictQuality feedbackStateSample "") none = 0
    rw [hs, hq]
    norm_num [calculateOverallScore, sentimentBaseScore, qualityBaseScore,
      roundTo2, roundHalfEven]
  refine ⟨by rw [show (analyzeFeedbackComprehensive feedbackStateSample "" none).sentiment_analysis
      = predictSentiment feedbackStateSample "" from rfl, hs], ?_, hov, ?_⟩
  · rw [show (analyzeFeedbackComprehensive feedbackStateSample "" none).quality_assessment
      = predictQuality feedbackStateSample "" from rfl, hq]
  · rw [hov]
    norm_num

/-- C6 amended: for every model state, `analyze_feedback_comprehensive`
applied to empty text with no numeric rating returns sentiment "neutral",
quality "average" and an overall score of exactly 0.0 (not 3.0: the empty
text gives both classifiers confidence 0 and the overall score is
confidence-weighted), and raises no exception (the embedding is total). -/
theorem classifyFeedback_empty_neutral_average_zero (st : FeedbackState) :
    (analyzeFeedbackComprehensive st "" none).sentiment_analysis.sentiment = "neutral"
    ∧ (analyzeFeedbackComprehensive st "" none).quality_assessment.quality = "average"
    ∧ (analyzeFeedbackComprehensive st "" none).overall_score = 0 := by
  obtain ⟨sm, qm⟩ := st
  have hs : predictSentiment ⟨sm, qm⟩ "" = ⟨"neutral", 0⟩ := by
    cases sm with
    | none => rfl
    | some m => rfl
  have hq : predictQuality ⟨sm, qm⟩ "" = ⟨"average", 0⟩ := by
    cases qm with
    | none => rfl
    | some m => rfl
  refine ⟨?_, ?_, ?_⟩
  · rw [show (analyzeFeedbackComprehensive ⟨sm, qm⟩ "" none).sentiment_analysis
      = predictSentiment ⟨sm, qm⟩ "" from rfl, hs]
  · rw [show (analyzeFeedbackComprehensive ⟨sm, qm⟩ "" none).quality_assessment
      = predictQuality ⟨sm, qm⟩ "" from rfl, hq]
  · show calculateOverallScore (predictSentiment ⟨sm, qm⟩ "")
      (predictQuality ⟨sm, qm⟩ "") none = 0
    rw [hs, hq]
    norm_num [calculateOverallScore, sentimentBaseScore, qualityBaseScore,
      roundTo2, roundHalfEven]

/-- C7 counterexample: on whitespace-only text the topic classifier returns
the label "Other" with confidence 1.0 (the probability map is
`{"Other": 1.0}`), not confidence 0 as the claim states. -/
theorem topic_empty_text_confidence_one_counterexample :
    (getTopTopic topicStateSample " ").1 = ("Other", 1)
    ∧ ((getTopTopic topicStateSample " ").1.2 : ℚ) ≠ 0 := by
  refine ⟨rfl, ?_⟩
  rw [show (getTopTopic topicStateSample " ").1 = ("Other", 1) from rfl]
  norm_num

/-- C7 amended: for every empty or whitespace-only input text,
`predict_topic` returns the distribution `{"Other": 1.0}` and `get_top_topic`
returns the default label "Other" — but with confidence 1.0, not 0 — and
never raises an exception (the embedding is total). -/
theorem topic_empty_text_returns_other_confidence_one (st : TopicState) (text : String)
    (h : pyStrip text = "") :
    (predictTopic st text).1 = [("Other", 1)]
    ∧ (getTopTopic st text).1 = ("Other", 1) := by
  have hp : (predictTopic st text).1 = [("Other", 1)] := by
    unfold predictTopic
    dsimp only
    rw [if_pos h]
  refine ⟨hp, ?_⟩
  unfold getTopTopic
  dsimp only
  rw [hp]
  rfl

/-- C7 witness: the amended claim at a concrete trained state and a
whitespace-only text. -/
theorem topic_empty_text_returns_other_confidence_one_witness :
    (predictTopic topicStateSample " ").1 = [("Other", 1)]
    ∧ (getTopTopic topicStateSample " ").1 = ("Other", 1) :=
  topic_empty_text_returns_other_confidence_one topicStateSample " " (by decide)

/-- C8 counterexample: a resource fully covering the user's
interests-plus-weaknesses but with rating 0 and popularity 0 is ranked BELOW
a zero-overlap resource with rating 5 and popularity 1 (the rating term is
0.2 times the raw rating, worth up to 1.0, which overcomes the 0.4 topic
term), contradicting "regardless of rating and popularity". -/
theorem resourceRanker_rating_outweighs_topic_counterexample :
    (uAlgebra.skills.interests ++ uAlgebra.skills.weaknesses).toFinset ⊆ rFull.topics.toFinset
    ∧ (uAlgebra.skills.interests ++ uAlgebra.skills.weaknesses).toFinset
        ∩ rZero.topics.toFinset = ∅
    ∧ (recommendLearningResources uAlgebra [rFull, rZero] 2).map ResourceRec.resource_id
        = ["zero", "match"]
    ∧ (recommendLearningResources uAlgebra [rFull, rZero] 2).map ResourceRec.resource_id
        ≠ ["match", "zero"] := by
  have key : recommendLearningResources uAlgebra [rFull, rZero] 2
      = [⟨"zero", 7/5⟩, ⟨"match", 7/10⟩] := by
    norm_num +decide [recommendLearningResources, resourceScore, uAlgebra, rFull, rZero,
      defUser, recLevelToNumber, pyLower, List.asString, List.mergeSort, List.merge]
  refine ⟨by decide, by decide, ?_, ?_⟩
  · rw [key]
    rfl
  · rw [key]
    decide

/-- C8 amended: a resource whose topics fully cover the user's nonempty
interests-plus-weaknesses set scores strictly higher than a resource with
zero topic overlap PROVIDED the two resources have equal rating, equal
popularity and the same difficulty level; it does not hold regardless of
rating, because the rating contributes 0.2 times the raw (unnormalized)
rating value. -/
theorem resource_full_overlap_beats_zero_overlap_equal_rating
    (user : User) (r1 r2 : Resource)
    (hfull : (user.skills.interests ++ user.skills.weaknesses).toFinset ⊆ r1.topics.toFinset)
    (hne : (user.skills.interests ++ user.skills.weaknesses).toFinset ≠ ∅)
    (hzero : (user.skills.interests ++ user.skills.weaknesses).toFinset
        ∩ r2.topics.toFinset = ∅)
    (hrating : r1.average_rating = r2.average_rating)
    (hpop : r1.popularity_score = r2.popularity_score)
    (hlevel : r1.level = r2.level) :
    resourceScore user r2 < resourceScore user r1 := by
  unfold resourceScore
  dsimp only
  rw [hrating, hpop, hlevel]
  rw [Finset.inter_eq_left.mpr hfull, hzero]
  have hpos : 0 < ((user.skills.interests ++ user.skills.weaknesses).toFinset.card : ℚ) := by
    have h := Finset.card_pos.mpr (Finset.nonempty_iff_ne_empty.mpr hne)
    exact_mod_cast h
  have hterm : 0 < ((user.skills.interests ++ user.skills.weaknesses).toFinset.card : ℚ)
      * (2/5) := by positivity
  simp only [Finset.card_empty, Nat.cast_zero, zero_mul]
  linarith

/-- C8 witness: the amended strict inequality at a concrete user, a
full-overlap resource and a zero-overlap resource with identical rating,
popularity and level. -/
theorem resource_full_overlap_beats_zero_overlap_equal_rating_witness :
    resourceScore uAlgebra rZeroSame < resourceScore uAlgebra rFull :=
  resource_full_overlap_beats_zero_overlap_equal_rating uAlgebra rFull rZeroSame
    (by decide) (by decide) (by decide) rfl rfl rfl

/-- C9 counterexample: with both fields of study empty (an exact string
match), `calculate_field_alignment` returns 0.5, which is none of the four
values (1.0 exact / 0.8 substring / 0.6 related / 0.3 otherwise) the claim
allows; consequently the expert match score differs from the claim's formula
by 0.2·(0.5 − 1.0) at this input. -/
theorem field_alignment_empty_field_counterexample :
    sNoField.profile.field_of_study = eNoField.profile.field_of_study
    ∧ calculateFieldAlignment sNoField eNoField = 1/2
    ∧ claimFieldAlignment sNoField eNoField = 1
    ∧ calculateFieldAlignment sNoField eNoField ≠ claimFieldAlignment sNoField eNoField
    ∧ expertFinalScore sNoField eNoField 0
        ≠ 0.40 * (calculateInterestOverlapScore sNoField eNoField : ℝ) + 0.30 * 0
          + 0.20 * (claimFieldAlignment sNoField eNoField : ℝ)
          + 0.10 * (calculateExperienceCompatibility sNoField eNoField : ℝ) := by
  have hio : calculateInterestOverlapScore sNoField eNoField = 0 := rfl
  have hfa : calculateFieldAlignment sNoField eNoField = 1/2 := rfl
  have hca : claimFieldAlignment sNoField eNoField = 1 := rfl
  have hec : calculateExperienceCompatibility sNoField eNoField = 1 := rfl
  refine ⟨rfl, hfa, hca, ?_, ?_⟩
  · rw [hfa, hca]
    norm_num
  · unfold expertFinalScore
    rw [hio, hfa, hca, hec]
    norm_num

/-- C9 amended: the expert match score equals 0.40·interestOverlap +
0.30·textCosine + 0.20·fieldAlignment + 0.10·experienceCompatibility, where
interestOverlap is the Jaccard similarity of the claim's two term sets,
fieldAlignment is 1.0 on exact match, 0.8 on substring, 0.6 via the
related-field table, 0.3 otherwise AND 0.5 when either field is empty, and
experienceCompatibility is 1.0 inside the level's expected experience band,
0.7 below it, 0.9 above it; every entry of `find_matches` carries this score
for its expert. -/
theorem expert_score_formula_amended (student expert : User) (t : ℝ) :
    expertFinalScore student expert t
      = 0.40 * (calculateInterestOverlapScore student expert : ℝ) + 0.30 * t
        + 0.20 * (calculateFieldAlignment student expert : ℝ)
        + 0.10 * (calculateExperienceCompatibility student expert : ℝ)
    ∧ calculateFieldAlignment student expert = claimFieldAlignmentAmended student expert
    ∧ calculateExperienceCompatibility student expert
        = claimExperienceCompatibility student expert
    ∧ calculateInterestOverlapScore student expert
        = jaccardSet (student.skills.interests.toFinset ∪ student.skills.weaknesses.toFinset)
            (expert.expertise_areas.toFinset ∪ expert.skills.interests.toFinset
              ∪ expert.skills.strengths.toFinset)
    ∧ (∀ (st : ExpertState) (k : ℕ) (m : ExpertMatch),
        m ∈ findExpertMatches st student k →
        ∃ e ∈ st.expert_profiles,
          m.expert_id = e.id
          ∧ m.match_score = expertFinalScore student e (expertTextScore st student e)) := by
  refine ⟨rfl, ?_, ?_, ?_, ?_⟩
  · unfold calculateFieldAlignment claimFieldAlignmentAmended claimFieldAlignment
    rfl
  · unfold calculateExperienceCompatibility claimExperienceCompatibility
    dsimp only
    split_ifs <;> first | rfl | omega
  · have hjz : ∀ a b : Finset String, a = ∅ ∨ b = ∅ → jaccardSet a b = 0 := by
      intro a b hab
      unfold jaccardSet
      split_ifs with h
      · rfl
      · have hi : a ∩ b = ∅ := by
          rcases hab with h1 | h1 <;> simp [h1]
        rw [hi]
        simp
    unfold calculateInterestOverlapScore
    dsimp only
    split_ifs with hA hB
    · exact (hjz _ _ hA).symm
    · unfold jaccardSet
      rw [if_neg (Finset.nonempty_iff_ne_empty.mp (Finset.card_pos.mp hB))]
    · exfalso
      push_neg at hA
      have h1 : (student.skills.interests.toFinset ∪ student.skills.weaknesses.toFinset).Nonempty :=
        Finset.nonempty_iff_ne_empty.mpr hA.1
      have h2 : ((student.skills.interests.toFinset ∪ student.skills.weaknesses.toFinset)
          ∪ (expert.expertise_areas.toFinset ∪ expert.skills.interests.toFinset
            ∪ expert.skills.strengths.toFinset)).Nonempty :=
        h1.mono Finset.subset_union_left
      exact absurd (Finset.card_pos.mpr h2) hB
  · intro st k m hm
    unfold findExpertMatches at hm
    by_cases htr : st.is_trained = false
    · rw [if_pos htr] at hm
      simp at hm
    · rw [if_neg htr] at hm
      dsimp only at hm
      have hm2 : m ∈ (st.expert_profiles.map (fun e =>
          let t := expertTextScore st student e
          ({ expert_id := e.id
             match_score := expertFinalScore student e t
             interest_overlap := calculateInterestOverlapScore student e
             text_similarity := t
             field_alignment := calculateFieldAlignment student e
             experience_compatibility := calculateExperienceCompatibility student e
             matched_interests :=
               student.skills.interests.toFinset ∩ e.expertise_areas.toFinset } :
            ExpertMatch))).mergeSort (fun a b => decide (b.match_score ≤ a.match_score)) :=
        List.mem_of_mem_take hm
      rw [List.mem_mergeSort] at hm2
      obtain ⟨e, he, rfl⟩ := List.mem_map.mp hm2
      exact ⟨e, he, rfl, rfl⟩

end CA12
